import Mathlib

/-!
Verification development for the terraform-provider-aidbox repository.

The repository provides a Terraform provider with a single `license`
resource.  Two client drafts live in the `aidboxclient` package (a
standalone `CreateLicense`, and a second draft routing through
`makeAPICall`), and the `provider` package holds the lifecycle adapter
(`LicenseResource`) and provider configuration (`Configure`).

The embedding below translates those Go functions into Lean.  The HTTP
world is represented by an environment: `send` maps the issued RPC
request to the outcome of `http.Client.Do` (an `Except.error` models a
failed call with a nil `*http.Response`, e.g. connection refused; the
redirect-policy corner case of a non-nil response paired with an error
is not modelled), and a response carries its status code, status line,
and the outcome of reading its body.  A body is carried both as raw
text (used verbatim in error messages) and as the outcome that
`yaml.Unmarshal` respectively `json.Unmarshal` produces on those bytes,
with the decoding of the structured document into the Go target types
implemented below following the field tags of the source.
-/

namespace Aidbox

/-- Structured YAML document values, the image of `yaml.v3` parsing. -/
inductive Yaml where
  | str (s : String)
  | int (n : Int)
  | bool (b : Bool)
  | map (entries : List (String × Yaml))
  | null

/-- Key lookup in a YAML mapping, first occurrence wins. -/
def lookupY (k : String) : List (String × Yaml) → Option Yaml
  | [] => none
  | (k2, v) :: rest => if k2 = k then some v else lookupY k rest

/-- Go struct `Creator` from the aidboxclient package. -/
structure Creator where
  id : String
  resourceType : String
  deriving DecidableEq

/-- Go struct `Project` from the aidboxclient package. -/
structure Project where
  id : String
  resourceType : String
  deriving DecidableEq

/-- Go struct `Info` from the aidboxclient package. -/
structure Info where
  hosting : String
  deriving DecidableEq

/-- Go struct `Meta` from the aidboxclient package. -/
structure Meta where
  lastUpdated : String
  createdAt : String
  versionID : String
  deriving DecidableEq

/-- Go struct `Additional` from the aidboxclient package; `boxURL` is a
`*string`, so an absent pointer is `none`. -/
structure Additional where
  expirationDays : Int
  boxURL : Option String
  deriving DecidableEq

/-- Go struct `License` from the aidboxclient package. -/
structure License where
  id : String
  name : String
  product : String
  type : String
  expiration : String
  status : String
  maxInstances : Int
  creator : Creator
  project : Project
  offline : Bool
  created : String
  meta : Meta
  issuer : String
  info : Info
  additional : Additional
  deriving DecidableEq

/-- Go zero value of `Creator`. -/
def zeroCreator : Creator := ⟨"", ""⟩

/-- Go zero value of `Project`. -/
def zeroProject : Project := ⟨"", ""⟩

/-- Go zero value of `Info`. -/
def zeroInfo : Info := ⟨""⟩

/-- Go zero value of `Meta`. -/
def zeroMeta : Meta := ⟨"", "", ""⟩

/-- Go zero value of `Additional`. -/
def zeroAdditional : Additional := ⟨0, none⟩

/-- Go zero value of `License`. -/
def zeroLicense : License :=
  ⟨"", "", "", "", "", "", 0, zeroCreator, zeroProject, false, "", zeroMeta, "", zeroInfo,
   zeroAdditional⟩

/-- Go struct `LicenseResponse`: the license paired with the issuance JWT. -/
structure LicenseResponse where
  license : License
  jwt : String
  deriving DecidableEq

/-- Go zero value of `LicenseResponse`. -/
def zeroLicenseResponse : LicenseResponse := ⟨zeroLicense, ""⟩

/-- The anonymous `Result` struct nested in `APIResponse`. -/
structure APIResult where
  license : License
  jwt : String
  deriving DecidableEq

/-- Go struct `APIResponse` mapping the YAML response envelope. -/
structure APIResponse where
  result : APIResult
  deriving DecidableEq

/-- Go zero value of `APIResult`. -/
def zeroAPIResult : APIResult := ⟨zeroLicense, ""⟩

/-- Go zero value of `APIResponse`. -/
def zeroAPIResponse : APIResponse := ⟨zeroAPIResult⟩

/-- yaml.v3 decoding of a scalar into a Go `string` field. -/
def decodeString : Yaml → Except String String
  | .str s => .ok s
  | .null => .ok ""
  | _ => .error "yaml: unmarshal errors"

/-- yaml.v3 decoding of a scalar into a Go `int` field. -/
def decodeInt : Yaml → Except String Int
  | .int n => .ok n
  | .null => .ok 0
  | _ => .error "yaml: unmarshal errors"

/-- yaml.v3 decoding of a scalar into a Go `bool` field. -/
def decodeBool : Yaml → Except String Bool
  | .bool b => .ok b
  | .null => .ok false
  | _ => .error "yaml: unmarshal errors"

/-- yaml.v3 decoding into a Go `*string` field. -/
def decodeOptString : Yaml → Except String (Option String)
  | .str s => .ok (some s)
  | .null => .ok none
  | _ => .error "yaml: unmarshal errors"

/-- A string field of a decoded mapping: absent keys keep the zero value. -/
def strField (es : List (String × Yaml)) (k : String) : Except String String :=
  match lookupY k es with
  | none => .ok ""
  | some v => decodeString v

/-- An int field of a decoded mapping: absent keys keep the zero value. -/
def intField (es : List (String × Yaml)) (k : String) : Except String Int :=
  match lookupY k es with
  | none => .ok 0
  | some v => decodeInt v

/-- A bool field of a decoded mapping: absent keys keep the zero value. -/
def boolField (es : List (String × Yaml)) (k : String) : Except String Bool :=
  match lookupY k es with
  | none => .ok false
  | some v => decodeBool v

/-- An optional-string field of a decoded mapping. -/
def optStrField (es : List (String × Yaml)) (k : String) : Except String (Option String) :=
  match lookupY k es with
  | none => .ok none
  | some v => decodeOptString v

/-- A nested-struct field of a decoded mapping: absent keys keep the zero value. -/
def subField {α : Type} (zero : α) (dec : Yaml → Except String α)
    (es : List (String × Yaml)) (k : String) : Except String α :=
  match lookupY k es with
  | none => .ok zero
  | some v => dec v

/-- yaml.v3 decoding into `Creator` following its yaml tags. -/
def decodeCreator : Yaml → Except String Creator
  | .map es => do
      let id ← strField es "id"
      let rt ← strField es "resourceType"
      .ok ⟨id, rt⟩
  | .null => .ok zeroCreator
  | _ => .error "yaml: unmarshal errors"

/-- yaml.v3 decoding into `Project` following its yaml tags. -/
def decodeProject : Yaml → Except String Project
  | .map es => do
      let id ← strField es "id"
      let rt ← strField es "resourceType"
      .ok ⟨id, rt⟩
  | .null => .ok zeroProject
  | _ => .error "yaml: unmarshal errors"

/-- yaml.v3 decoding into `Info` following its yaml tags. -/
def decodeInfo : Yaml → Except String Info
  | .map es => do
      let h ← strField es "hosting"
      .ok ⟨h⟩
  | .null => .ok zeroInfo
  | _ => .error "yaml: unmarshal errors"

/-- yaml.v3 decoding into `Meta` following its yaml tags. -/
def decodeMeta : Yaml → Except String Meta
  | .map es => do
      let lu ← strField es "lastUpdated"
      let ca ← strField es "createdAt"
      let vi ← strField es "versionId"
      .ok ⟨lu, ca, vi⟩
  | .null => .ok zeroMeta
  | _ => .error "yaml: unmarshal errors"

/-- yaml.v3 decoding into `Additional` following its yaml tags. -/
def decodeAdditional : Yaml → Except String Additional
  | .map es => do
      let ed ← intField es "expiration-days"
      let bu ← optStrField es "box-url"
      .ok ⟨ed, bu⟩
  | .null => .ok zeroAdditional
  | _ => .error "yaml: unmarshal errors"

/-- yaml.v3 decoding into `License` following its yaml tags. -/
def decodeLicense : Yaml → Except String License
  | .map es => do
      let id ← strField es "id"
      let name ← strField es "name"
      let product ← strField es "product"
      let ty ← strField es "type"
      let expiration ← strField es "expiration"
      let status ← strField es "status"
      let mi ← intField es "max-instances"
      let creator ← subField zeroCreator decodeCreator es "creator"
      let project ← subField zeroProject decodeProject es "project"
      let offline ← boolField es "offline"
      let created ← strField es "created"
      let meta ← subField zeroMeta decodeMeta es "meta"
      let issuer ← strField es "issuer"
      let info ← subField zeroInfo decodeInfo es "info"
      let additional ← subField zeroAdditional decodeAdditional es "additional"
      .ok ⟨id, name, product, ty, expiration, status, mi, creator, project, offline, created,
           meta, issuer, info, additional⟩
  | .null => .ok zeroLicense
  | _ => .error "yaml: unmarshal errors"

/-- yaml.v3 decoding into the anonymous `Result` struct following its yaml tags. -/
def decodeResult : Yaml → Except String APIResult
  | .map es => do
      let lic ← subField zeroLicense decodeLicense es "license"
      let jwt ← strField es "jwt"
      .ok ⟨lic, jwt⟩
  | .null => .ok zeroAPIResult
  | _ => .error "yaml: unmarshal errors"

/-- yaml.v3 decoding into `APIResponse`: the untagged `Result` field matches
the lowercased key `result`; absent keys keep the zero value; unknown keys
are ignored. -/
def decodeAPIResponse : Yaml → Except String APIResponse
  | .map es =>
    match subField zeroAPIResult decodeResult es "result" with
    | .error e => .error e
    | .ok r => .ok ⟨r⟩
  | .null => .ok zeroAPIResponse
  | _ => .error "yaml: unmarshal errors"

/-- The combined `Unmarshal` step of yaml.v3 on a response body: syntactic
parsing of the bytes followed by decoding into `APIResponse`. -/
def unmarshalAPIResponse (parsed : Except String Yaml) : Except String APIResponse :=
  match parsed with
  | .error e => .error e
  | .ok y => decodeAPIResponse y

/-- A response body: the raw bytes as text (used verbatim in error
messages) together with the outcome of syntactic YAML parsing on them. -/
structure RespBody where
  text : String
  parsedYaml : Except String Yaml

/-- The observable part of an `*http.Response`: status code, status line,
and the outcome of `ioutil.ReadAll` on the body. -/
structure HttpResp where
  statusCode : Nat
  status : String
  bodyRead : Except String RespBody

/-- The RPC envelope the client serialises and posts: method plus params.
Go maps are unordered; the list records the key-value pairs in source
order. -/
structure RpcRequest where
  method : String
  params : List (String × String)
  deriving DecidableEq

/-- The environment of one client operation: whether `http.NewRequest`
fails for the configured endpoint, and what `http.Client.Do` returns for
the posted request.  An `Except.error` from `send` is a failed call whose
`*http.Response` is nil (connection refused, DNS failure, ...). -/
structure ClientEnv where
  newRequestErr : Option String
  send : RpcRequest → Except String HttpResp

/-- Go struct `AidboxHTTPClient`: the configured endpoint and token. -/
structure AidboxHTTPClient where
  endpoint : String
  token : String

/-- Outcome of a Go function call: a normal return carrying a value, a
normal return carrying a non-nil error, or a runtime panic. -/
inductive GoResult (α : Type) where
  | ok (a : α)
  | err (msg : String)
  | panicked (msg : String)
  deriving DecidableEq

/- First client draft of the aidboxclient package. -/
namespace V1

/-- First-draft `AidboxHTTPClient.CreateLicense`: builds the issue-license
envelope, posts it, reads the body, rejects non-200 statuses, then
unmarshals the envelope.  Returns the Go result together with the list of
requests actually handed to `Client.Do`. -/
def CreateLicense (c : AidboxHTTPClient) (env : ClientEnv)
    (name product licenseType : String) :
    Except String LicenseResponse × List RpcRequest :=
  let req : RpcRequest :=
    ⟨"portal.portal/issue-license",
     [("token", c.token), ("name", name), ("product", product), ("type", licenseType)]⟩
  match env.newRequestErr with
  | some e => (.error ("failed to create HTTP request: " ++ e), [])
  | none =>
    match env.send req with
    | .error e => (.error ("API call failed: " ++ e), [req])
    | .ok resp =>
      match resp.bodyRead with
      | .error e => (.error ("failed to read response body: " ++ e), [req])
      | .ok body =>
        if resp.statusCode ≠ 200 then
          (.error ("API response error: " ++ resp.status ++ "; Body: " ++ body.text), [req])
        else
          match unmarshalAPIResponse body.parsedYaml with
          | .error e =>
            (.error ("failed to parse YAML response: " ++ e ++ "; Body: " ++ body.text), [req])
          | .ok apiResp => (.ok ⟨apiResp.result.license, apiResp.result.jwt⟩, [req])

end V1

/- Second client draft of the aidboxclient package. -/
namespace V2

/-- Second-draft `AidboxHTTPClient.makeAPICall`.  On a failed `Do` call the
Go code returns `nil, resp.StatusCode, err` while `resp` is nil, so that
branch is a nil-pointer dereference, modelled as a panic. -/
def makeAPICall (_c : AidboxHTTPClient) (env : ClientEnv)
    (method : String) (params : List (String × String)) :
    GoResult (RespBody × Nat) × List RpcRequest :=
  let req : RpcRequest := ⟨method, params⟩
  match env.newRequestErr with
  | some e => (.err ("failed to create HTTP request: " ++ e), [])
  | none =>
    match env.send req with
    | .error _ =>
      (.panicked "runtime error: invalid memory address or nil pointer dereference", [req])
    | .ok resp =>
      match resp.bodyRead with
      | .error e => (.err ("failed to read response body: " ++ e), [req])
      | .ok body =>
        if resp.statusCode ≠ 200 then
          (.err ("API response error: " ++ resp.status ++ "; Body: " ++ body.text), [req])
        else (.ok (body, resp.statusCode), [req])

/-- Second-draft `parseYAMLResponse`: unmarshals the body into the
envelope and unwraps `result.license` and `result.jwt`. -/
def parseYAMLResponse (body : RespBody) : Except String LicenseResponse :=
  match unmarshalAPIResponse body.parsedYaml with
  | .error e => .error ("failed to parse YAML response: " ++ e)
  | .ok apiResp => .ok ⟨apiResp.result.license, apiResp.result.jwt⟩

/-- Second-draft `AidboxHTTPClient.CreateLicense`: one `makeAPICall` with
the issue-license method, then `parseYAMLResponse`. -/
def CreateLicense (c : AidboxHTTPClient) (env : ClientEnv)
    (name product licenseType : String) :
    GoResult LicenseResponse × List RpcRequest :=
  match makeAPICall c env "portal.portal/issue-license"
      [("token", c.token), ("name", name), ("product", product), ("type", licenseType)] with
  | (.err e, tr) => (.err e, tr)
  | (.panicked e, tr) => (.panicked e, tr)
  | (.ok (body, _), tr) =>
    match parseYAMLResponse body with
    | .error e => (.err e, tr)
    | .ok lr => (.ok lr, tr)

/-- Second-draft `AidboxHTTPClient.GetLicense`: one `makeAPICall` with the
get-license method, then `parseYAMLResponse`. -/
def GetLicense (c : AidboxHTTPClient) (env : ClientEnv) (licenseID : String) :
    GoResult LicenseResponse × List RpcRequest :=
  match makeAPICall c env "portal.portal/get-license"
      [("token", c.token), ("id", licenseID)] with
  | (.err e, tr) => (.err e, tr)
  | (.panicked e, tr) => (.panicked e, tr)
  | (.ok (body, _), tr) =>
    match parseYAMLResponse body with
    | .error e => (.err e, tr)
    | .ok lr => (.ok lr, tr)

/-- Second-draft `AidboxHTTPClient.DeleteLicense`: one `makeAPICall` with
the remove-license method; the body is discarded. -/
def DeleteLicense (c : AidboxHTTPClient) (env : ClientEnv) (licenseID : String) :
    GoResult Unit × List RpcRequest :=
  match makeAPICall c env "portal.portal/remove-license"
      [("token", c.token), ("id", licenseID)] with
  | (.err e, tr) => (.err e, tr)
  | (.panicked e, tr) => (.panicked e, tr)
  | (.ok _, tr) => (.ok (), tr)

end V2

/-- Terraform framework string value (`types.String`): null, unknown, or a
known string. -/
inductive TfString where
  | null
  | unknown
  | value (s : String)
  deriving DecidableEq

/-- `types.String.ValueString()`: the known value, or the empty string for
null and unknown. -/
def TfString.valueString : TfString → String
  | .value s => s
  | _ => ""

/-- `IsNull() || IsUnknown()` on a `types.String`. -/
def TfString.isNullOrUnknown : TfString → Bool
  | .null => true
  | .unknown => true
  | .value _ => false

/-- `types.String.String()`: the Terraform representation — null and
unknown markers, and known values wrapped in double quotes. -/
def TfString.goString : TfString → String
  | .null => "<null>"
  | .unknown => "<unknown>"
  | .value s => "\"" ++ s ++ "\""

/-- Terraform framework 64-bit integer value (`types.Int64`). -/
inductive TfInt64 where
  | null
  | unknown
  | value (n : Int)
  deriving DecidableEq

/-- Terraform framework boolean value (`types.Bool`). -/
inductive TfBool where
  | null
  | unknown
  | value (b : Bool)
  deriving DecidableEq

/-- A framework diagnostic: summary and detail, as passed to `AddError`. -/
structure Diagnostic where
  summary : String
  detail : String
  deriving DecidableEq

/-- Go struct `AidboxProviderModel`: the two provider attributes. -/
structure AidboxProviderModel where
  endpoint : TfString
  token : TfString
  deriving DecidableEq

/-- Go struct `ProviderData` (without the opaque client handle): resolved
endpoint and token handed to resources. -/
structure ProviderData where
  endpoint : String
  token : String
  deriving DecidableEq

/-- Outcome of `Configure`: accumulated diagnostics, and the resource data
made available to resource operations (none when `Configure` aborted). -/
structure ConfigureResponse where
  diagnostics : List Diagnostic
  resourceData : Option ProviderData
  deriving DecidableEq

/-- The guard `IsNull() || IsUnknown() || ValueString() == ""` used by
`Configure` on both attributes. -/
def unsetOrEmpty (s : TfString) : Bool :=
  s.isNullOrUnknown || s.valueString == ""

/-- `AidboxProvider.Configure` (identically `ScaffoldingProvider.Configure`):
decode the configuration, default the endpoint to the production URL when
absent or empty, fall back to the `AIDBOX_TOKEN` environment variable for
the token, and abort with a diagnostic when both token sources are empty.
`envToken` is the value of `os.Getenv`, which returns the empty string for
an unset variable. -/
def configureProvider (cfg : Except Diagnostic AidboxProviderModel)
    (envToken : String) : ConfigureResponse :=
  match cfg with
  | .error d => ⟨[d], none⟩
  | .ok data0 =>
    let data1 :=
      if unsetOrEmpty data0.endpoint then
        { data0 with endpoint := TfString.value "https://aidbox.app/rpc" }
      else data0
    if unsetOrEmpty data1.token then
      if envToken ≠ "" then
        ⟨[], some ⟨data1.endpoint.valueString, envToken⟩⟩
      else
        ⟨[⟨"No Token Provided",
           "Please provide a 'token' in the provider configuration or through the 'AIDBOX_TOKEN' environment variable."⟩],
         none⟩
    else ⟨[], some ⟨data1.endpoint.valueString, data1.token.valueString⟩⟩

/-- Go struct `LicenseResourceModel` of the second draft of
license_resource.go: the seventeen persisted attributes. -/
structure LicenseResourceModel where
  id : TfString
  name : TfString
  product : TfString
  type : TfString
  expiration : TfString
  status : TfString
  maxInstances : TfInt64
  creatorID : TfString
  projectID : TfString
  offline : TfBool
  created : TfString
  metaLastUpdated : TfString
  metaCreatedAt : TfString
  metaVersionID : TfString
  issuer : TfString
  infoHosting : TfString
  jwt : TfString
  deriving DecidableEq

/-- Structured JSON document values, the image of `encoding/json` parsing. -/
inductive Json where
  | str (s : String)
  | num (n : Int)
  | bool (b : Bool)
  | obj (entries : List (String × Json))
  | arr (elems : List Json)
  | null

/-- The Go field names of `LicenseResourceModel`.  The struct carries only
`tfsdk` tags, so `encoding/json` matches object keys against these names. -/
def modelJsonFieldNames : List String :=
  ["ID", "Name", "Product", "Type", "Expiration", "Status", "MaxInstances", "CreatorID",
   "ProjectID", "Offline", "Created", "MetaLastUpdated", "MetaCreatedAt", "MetaVersionID",
   "Issuer", "InfoHosting", "JWT"]

/-- Lowercasing of an ASCII character, written on codepoints so that it
evaluates by kernel reduction. -/
def charLower (c : Char) : Char :=
  if 65 ≤ c.toNat ∧ c.toNat ≤ 90 then Char.ofNat (c.toNat + 32) else c

/-- Case-insensitive equality of a key and a field name.  `encoding/json`
prefers an exact match and falls back to a case-insensitive one, so a key
matches a field exactly when the two are case-insensitively equal. -/
def caselessEq (a b : String) : Bool :=
  a.data.map charLower == b.data.map charLower

/-- Whether a JSON object key matches a `LicenseResourceModel` field. -/
def matchesModelField (k : String) : Bool :=
  modelJsonFieldNames.any (fun f => caselessEq k f)

/-- Whether a JSON value decodes into a Terraform framework value struct
without error.  The framework types export no fields and implement no
`json.Unmarshaler`, so an object or null is skipped silently while any
scalar or array raises an `UnmarshalTypeError`. -/
def decodesIntoFrameworkValue : Json → Bool
  | .obj _ => true
  | .null => true
  | _ => false

/-- `json.Unmarshal(bodyBytes, &data)` with `data : LicenseResourceModel`:
a non-object document is a type error; object keys that match no field
are ignored; keys that match a field succeed only for values that decode
into a framework value struct, and never change the field. -/
def jsonUnmarshalModel (j : Json) (d : LicenseResourceModel) :
    Except String LicenseResourceModel :=
  match j with
  | .obj es =>
    if es.all (fun e => !(matchesModelField e.1) || decodesIntoFrameworkValue e.2) then
      .ok d
    else .error "json: cannot unmarshal value into Go struct field"
  | .null => .ok d
  | _ => .error "json: cannot unmarshal value into Go value of type provider.LicenseResourceModel"

/-- A response body seen by the adapter: raw text and the outcome of
syntactic JSON parsing on it. -/
structure AdapterBody where
  text : String
  parsedJson : Except String Json

/-- The observable part of the response to the adapter POST: the outcome
of reading the body (`Create` never inspects the status code). -/
structure AdapterResp where
  bodyRead : Except String AdapterBody

/-- The environment of one `Create` invocation: the outcome of decoding
the plan, whether `http.NewRequest` fails, and what `Client.Do` returns
for the posted request body. -/
structure CreateEnv where
  plan : Except Diagnostic LicenseResourceModel
  newRequestErr : Option String
  respond : String → Except String AdapterResp

/-- The request body `Create` builds by `fmt.Sprintf`: the token verbatim
and the `String()` forms of the three plan attributes. -/
def createRequestBody (token : String) (d : LicenseResourceModel) : String :=
  "method: portal.portal/issue-license\nparams:\n  token: " ++ token ++
  "\n  name: " ++ d.name.goString ++ "\n  product: " ++ d.product.goString ++
  "\n  type: " ++ d.type.goString

/-- Outcome of a lifecycle verb: accumulated diagnostics and the state
written by `resp.State.Set` (none when the verb returned early). -/
structure LifecycleResponse where
  diagnostics : List Diagnostic
  state : Option LicenseResourceModel
  deriving DecidableEq

/-- `LicenseResource.Create` of the second draft: decode the plan, default
`product` to "aidbox" when null or unknown, build the request body, POST
it, read the body, reject an empty body, parse it as JSON into the model,
substitute a placeholder id when the id prints as the empty string, and
persist; every failure aborts with a diagnostic before `State.Set`. -/
def createLicenseResource (token : String) (env : CreateEnv) : LifecycleResponse :=
  match env.plan with
  | .error d => ⟨[d], none⟩
  | .ok data0 =>
    let data1 :=
      if data0.product.isNullOrUnknown then
        { data0 with product := TfString.value "aidbox" }
      else data0
    let reqBody := createRequestBody token data1
    match env.newRequestErr with
    | some e => ⟨[⟨"Failed to create HTTP request", "Error: " ++ e⟩], none⟩
    | none =>
      match env.respond reqBody with
      | .error e => ⟨[⟨"API Call Failed", "Could not issue a license: " ++ e⟩], none⟩
      | .ok resp =>
        match resp.bodyRead with
        | .error e => ⟨[⟨"Failed to read response body", "Error: " ++ e⟩], none⟩
        | .ok body =>
          if body.text = "" then
            ⟨[⟨"Empty Response", "The API response is empty, expected JSON."⟩], none⟩
          else
            match body.parsedJson with
            | .error e =>
              ⟨[⟨"Failed to parse response body",
                 "Error parsing JSON: " ++ e ++ "; Response Body: " ++ body.text⟩], none⟩
            | .ok j =>
              match jsonUnmarshalModel j data1 with
              | .error e =>
                ⟨[⟨"Failed to parse response body",
                   "Error parsing JSON: " ++ e ++ "; Response Body: " ++ body.text⟩], none⟩
              | .ok data2 =>
                let data3 :=
                  if data2.id.goString = "" then
                    { data2 with id := TfString.value "extracted-id-from-response" }
                  else data2
                ⟨[], some data3⟩

/-- `LicenseResource.Read` of the second draft: decode the prior state and
re-persist it unchanged; no remote call is made. -/
def readLicenseResource (prior : Except Diagnostic LicenseResourceModel) :
    LifecycleResponse :=
  match prior with
  | .error d => ⟨[d], none⟩
  | .ok data0 => ⟨[], some data0⟩

/-! ## Sample environments used by closed statements -/

/-- A response body whose bytes are not syntactically valid YAML. -/
def err500Body : RespBody := ⟨"internal error", .error "yaml: parse error"⟩

/-- An HTTP 500 response with body text "internal error". -/
def err500Resp : HttpResp := ⟨500, "500 Internal Server Error", .ok err500Body⟩

/-- An environment whose endpoint answers every request with `err500Resp`. -/
def err500Env : ClientEnv := ⟨none, fun _ => .ok err500Resp⟩

/-- An environment in which every `Do` call fails with a nil response. -/
def transportFailEnv : ClientEnv := ⟨none, fun _ => .error "connection refused"⟩

/-- An echoing endpoint: answers HTTP 200 with an envelope whose license
carries back the name, product and type parameters of the request, and a
fixed JWT. -/
def echoEnv : ClientEnv :=
  ⟨none, fun req =>
    .ok ⟨200, "200 OK",
      .ok ⟨"license: echoed",
        .ok (.map [("result", .map [
          ("license", .map [
            ("name", .str ((req.params.lookup "name").getD "")),
            ("product", .str ((req.params.lookup "product").getD "")),
            ("type", .str ((req.params.lookup "type").getD ""))]),
          ("jwt", .str "echo.jwt")])])⟩⟩⟩

/-! ## Substring containment for error-message claims -/

/-- The error message `s` carries the text `sub` verbatim. -/
def ContainsStr (s sub : String) : Prop := ∃ p q, s = p ++ (sub ++ q)

lemma containsStr_last (p t : String) : ContainsStr (p ++ t) t :=
  ⟨p, "", by simp⟩

lemma containsStr_mid2 (a t b u : String) : ContainsStr (a ++ t ++ b ++ u) t :=
  ⟨a, b ++ u, by simp [String.append_assoc]⟩

/-! ## Behaviour of makeAPICall -/

lemma makeAPICall_non200 (c : AidboxHTTPClient) (env : ClientEnv) (method : String)
    (params : List (String × String)) (resp : HttpResp) (body : RespBody)
    (hreq : env.newRequestErr = none) (hsend : env.send ⟨method, params⟩ = .ok resp)
    (hread : resp.bodyRead = .ok body) (hst : resp.statusCode ≠ 200) :
    V2.makeAPICall c env method params =
      (.err ("API response error: " ++ resp.status ++ "; Body: " ++ body.text),
       [⟨method, params⟩]) := by
  simp [V2.makeAPICall, hreq, hsend, hread, hst]

lemma makeAPICall_200 (c : AidboxHTTPClient) (env : ClientEnv) (method : String)
    (params : List (String × String)) (resp : HttpResp) (body : RespBody)
    (hreq : env.newRequestErr = none) (hsend : env.send ⟨method, params⟩ = .ok resp)
    (hread : resp.bodyRead = .ok body) (hst : resp.statusCode = 200) :
    V2.makeAPICall c env method params = (.ok (body, 200), [⟨method, params⟩]) := by
  simp [V2.makeAPICall, hreq, hsend, hread, hst]

lemma makeAPICall_trace (c : AidboxHTTPClient) (env : ClientEnv) (method : String)
    (params : List (String × String)) (hreq : env.newRequestErr = none) :
    (V2.makeAPICall c env method params).snd = [⟨method, params⟩] := by
  unfold V2.makeAPICall
  rw [hreq]
  rcases h : env.send ⟨method, params⟩ with e | resp
  · simp [h]
  · rcases hb : resp.bodyRead with e | body
    · simp [h, hb]
    · by_cases hst : resp.statusCode = 200 <;> simp [h, hb, hst]

/-! ## Claim theorems -/

/-- C2: for every HTTP response with a status code other than 200 (whose
body is readable), each of the four client operations — the first-draft
CreateLicense and the second-draft CreateLicense, GetLicense and
DeleteLicense — returns an error whose message carries both the response
status text and the raw body verbatim, never a successful result. -/
theorem non200_error_contains_status_and_body
    (c : AidboxHTTPClient) (env : ClientEnv)
    (name product licenseType licenseID licenseID2 : String)
    (resp : HttpResp) (body : RespBody)
    (hreq : env.newRequestErr = none)
    (hsend : ∀ r, env.send r = .ok resp)
    (hread : resp.bodyRead = .ok body)
    (hst : resp.statusCode ≠ 200) :
    (∃ msg, (V1.CreateLicense c env name product licenseType).fst = .error msg ∧
       ContainsStr msg resp.status ∧ ContainsStr msg body.text) ∧
    (∃ msg, (V2.CreateLicense c env name product licenseType).fst = .err msg ∧
       ContainsStr msg resp.status ∧ ContainsStr msg body.text) ∧
    (∃ msg, (V2.GetLicense c env licenseID).fst = .err msg ∧
       ContainsStr msg resp.status ∧ ContainsStr msg body.text) ∧
    (∃ msg, (V2.DeleteLicense c env licenseID2).fst = .err msg ∧
       ContainsStr msg resp.status ∧ ContainsStr msg body.text) := by
  have h1 : (V1.CreateLicense c env name product licenseType).fst =
      .error ("API response error: " ++ resp.status ++ "; Body: " ++ body.text) := by
    simp [V1.CreateLicense, hreq, hsend, hread, hst]
  have h2 : (V2.CreateLicense c env name product licenseType).fst =
      .err ("API response error: " ++ resp.status ++ "; Body: " ++ body.text) := by
    simp [V2.CreateLicense, makeAPICall_non200 c env _ _ resp body hreq (hsend _) hread hst]
  have h3 : (V2.GetLicense c env licenseID).fst =
      .err ("API response error: " ++ resp.status ++ "; Body: " ++ body.text) := by
    simp [V2.GetLicense, makeAPICall_non200 c env _ _ resp body hreq (hsend _) hread hst]
  have h4 : (V2.DeleteLicense c env licenseID2).fst =
      .err ("API response error: " ++ resp.status ++ "; Body: " ++ body.text) := by
    simp [V2.DeleteLicense, makeAPICall_non200 c env _ _ resp body hreq (hsend _) hread hst]
  exact ⟨⟨_, h1, containsStr_mid2 _ _ _ _, containsStr_last _ _⟩,
         ⟨_, h2, containsStr_mid2 _ _ _ _, containsStr_last _ _⟩,
         ⟨_, h3, containsStr_mid2 _ _ _ _, containsStr_last _ _⟩,
         ⟨_, h4, containsStr_mid2 _ _ _ _, containsStr_last _ _⟩⟩

/-- Witness for C2 at a concrete 500 exchange. -/
theorem non200_error_contains_status_and_body_witness :
    ∃ msg, (V2.DeleteLicense ⟨"https://aidbox.app/rpc", "tok"⟩ err500Env "lic-1").fst
        = .err msg ∧
      ContainsStr msg "500 Internal Server Error" ∧ ContainsStr msg "internal error" :=
  (non200_error_contains_status_and_body ⟨"https://aidbox.app/rpc", "tok"⟩ err500Env
      "acme" "aidbox" "standard" "lic-1" "lic-1" err500Resp err500Body
      rfl (fun _ => rfl) rfl (by decide)).2.2.2

/-- C5: when the HTTP call itself fails (a nil response), the second-draft
operations do not return a wrapped error: `makeAPICall` reads the status
code of the nil response and panics.  Only the first-draft CreateLicense
returns the wrapped transport error the claim describes. -/
theorem transport_error_panics_second_draft :
    (V2.CreateLicense ⟨"https://aidbox.app/rpc", "tok"⟩ transportFailEnv
        "acme" "aidbox" "standard").fst
      = .panicked "runtime error: invalid memory address or nil pointer dereference" ∧
    (V2.GetLicense ⟨"https://aidbox.app/rpc", "tok"⟩ transportFailEnv "lic-1").fst
      = .panicked "runtime error: invalid memory address or nil pointer dereference" ∧
    (V2.DeleteLicense ⟨"https://aidbox.app/rpc", "tok"⟩ transportFailEnv "lic-1").fst
      = .panicked "runtime error: invalid memory address or nil pointer dereference" ∧
    (V1.CreateLicense ⟨"https://aidbox.app/rpc", "tok"⟩ transportFailEnv
        "acme" "aidbox" "standard").fst
      = .error ("API call failed: " ++ "connection refused") :=
  ⟨rfl, rfl, rfl, rfl⟩

/-- C6: DeleteLicense hands `Client.Do` exactly one request, the envelope
with the remove-license method and params holding exactly the configured
token and the given id. -/
theorem deleteLicense_single_remove_request
    (c : AidboxHTTPClient) (env : ClientEnv) (licenseID : String)
    (hreq : env.newRequestErr = none) :
    (V2.DeleteLicense c env licenseID).snd =
      [⟨"portal.portal/remove-license", [("token", c.token), ("id", licenseID)]⟩] := by
  have h : (V2.DeleteLicense c env licenseID).snd =
      (V2.makeAPICall c env "portal.portal/remove-license"
        [("token", c.token), ("id", licenseID)]).snd := by
    unfold V2.DeleteLicense
    split <;> simp_all
  rw [h, makeAPICall_trace c env _ _ hreq]

/-- Witness for C6 at a concrete id and token. -/
theorem deleteLicense_single_remove_request_witness :
    (V2.DeleteLicense ⟨"https://aidbox.app/rpc", "tok"⟩ err500Env "lic-1").snd =
      [⟨"portal.portal/remove-license", [("token", "tok"), ("id", "lic-1")]⟩] :=
  deleteLicense_single_remove_request ⟨"https://aidbox.app/rpc", "tok"⟩ err500Env "lic-1" rfl

lemma createLicense_trace (c : AidboxHTTPClient) (env : ClientEnv)
    (name product licenseType : String) :
    (V2.CreateLicense c env name product licenseType).snd =
      (V2.makeAPICall c env "portal.portal/issue-license"
        [("token", c.token), ("name", name), ("product", product), ("type", licenseType)]).snd := by
  unfold V2.CreateLicense
  split <;> simp_all
  split <;> simp_all

/-- C4: CreateLicense posts the issue-license envelope whose params carry
exactly the configured token and the given name, product and type; against
the echoing endpoint the decoded license carries back exactly those three
inputs. -/
theorem createLicense_request_envelope_and_echo
    (c : AidboxHTTPClient) (env : ClientEnv) (name product licenseType : String)
    (hreq : env.newRequestErr = none) :
    (V2.CreateLicense c env name product licenseType).snd =
      [⟨"portal.portal/issue-license",
        [("token", c.token), ("name", name), ("product", product), ("type", licenseType)]⟩] ∧
    (V2.CreateLicense c echoEnv name product licenseType).fst =
      .ok ⟨⟨"", name, product, licenseType, "", "", 0, zeroCreator, zeroProject, false, "",
            zeroMeta, "", zeroInfo, zeroAdditional⟩, "echo.jwt"⟩ := by
  constructor
  · rw [createLicense_trace, makeAPICall_trace c env _ _ hreq]
  · rfl

/-- Witness for C4 at a concrete client and input triple. -/
theorem createLicense_request_envelope_and_echo_witness :
    (V2.CreateLicense ⟨"https://aidbox.app/rpc", "tok"⟩ echoEnv "acme" "aidbox" "standard").snd =
      [⟨"portal.portal/issue-license",
        [("token", "tok"), ("name", "acme"), ("product", "aidbox"), ("type", "standard")]⟩] ∧
    (V2.CreateLicense ⟨"https://aidbox.app/rpc", "tok"⟩ echoEnv "acme" "aidbox" "standard").fst =
      .ok ⟨⟨"", "acme", "aidbox", "standard", "", "", 0, zeroCreator, zeroProject, false, "",
            zeroMeta, "", zeroInfo, zeroAdditional⟩, "echo.jwt"⟩ :=
  createLicense_request_envelope_and_echo ⟨"https://aidbox.app/rpc", "tok"⟩ echoEnv
    "acme" "aidbox" "standard" rfl

/-- C9: an HTTP 200 response whose body is a well-formed YAML mapping
without a top-level result key makes CreateLicense and GetLicense return
success carrying the all-zero license and the empty JWT. -/
theorem missing_result_key_yields_zero_response
    (c : AidboxHTTPClient) (env : ClientEnv)
    (name product licenseType licenseID : String)
    (resp : HttpResp) (body : RespBody) (es : List (String × Yaml))
    (hreq : env.newRequestErr = none)
    (hsend : ∀ r, env.send r = .ok resp)
    (hread : resp.bodyRead = .ok body)
    (hst : resp.statusCode = 200)
    (hyaml : body.parsedYaml = .ok (.map es))
    (hres : lookupY "result" es = none) :
    (V2.CreateLicense c env name product licenseType).fst = .ok zeroLicenseResponse ∧
    (V2.GetLicense c env licenseID).fst = .ok zeroLicenseResponse := by
  have hparse : V2.parseYAMLResponse body = .ok zeroLicenseResponse := by
    simp [V2.parseYAMLResponse, unmarshalAPIResponse, hyaml, decodeAPIResponse, subField, hres,
      zeroLicenseResponse, zeroAPIResult]
  constructor
  · simp [V2.CreateLicense, makeAPICall_200 c env _ _ resp body hreq (hsend _) hread hst, hparse]
  · simp [V2.GetLicense, makeAPICall_200 c env _ _ resp body hreq (hsend _) hread hst, hparse]

/-- A well-formed 200 response whose mapping has no result key. -/
def noResultBody : RespBody := ⟨"status: ok", .ok (.map [("status", .str "ok")])⟩

/-- The 200 response carrying `noResultBody`. -/
def noResultResp : HttpResp := ⟨200, "200 OK", .ok noResultBody⟩

/-- An environment answering every request with `noResultResp`. -/
def noResultEnv : ClientEnv := ⟨none, fun _ => .ok noResultResp⟩

/-- Witness for C9 at a concrete result-free 200 exchange. -/
theorem missing_result_key_yields_zero_response_witness :
    (V2.CreateLicense ⟨"https://aidbox.app/rpc", "tok"⟩ noResultEnv
        "acme" "aidbox" "standard").fst = .ok zeroLicenseResponse ∧
    (V2.GetLicense ⟨"https://aidbox.app/rpc", "tok"⟩ noResultEnv "lic-1").fst =
      .ok zeroLicenseResponse :=
  missing_result_key_yields_zero_response ⟨"https://aidbox.app/rpc", "tok"⟩ noResultEnv
    "acme" "aidbox" "standard" "lic-1" noResultResp noResultBody [("status", .str "ok")]
    rfl (fun _ => rfl) rfl rfl rfl rfl

/-- C10: whenever the POST of the issue-license envelope completes with a
response, the first-draft CreateLicense and the second-draft CreateLicense
compute the same successful LicenseResponse and agree on whether an error
occurs. -/
theorem v1_v2_createLicense_agree
    (c : AidboxHTTPClient) (env : ClientEnv) (name product licenseType : String)
    (resp : HttpResp)
    (hsend : env.send ⟨"portal.portal/issue-license",
        [("token", c.token), ("name", name), ("product", product), ("type", licenseType)]⟩
      = .ok resp) :
    (∀ lr : LicenseResponse,
      (V1.CreateLicense c env name product licenseType).fst = .ok lr ↔
      (V2.CreateLicense c env name product licenseType).fst = .ok lr) ∧
    ((∃ e, (V1.CreateLicense c env name product licenseType).fst = .error e) ↔
     (∃ e, (V2.CreateLicense c env name product licenseType).fst = .err e)) := by
  unfold V1.CreateLicense V2.CreateLicense V2.makeAPICall V2.parseYAMLResponse
  rcases hnr : env.newRequestErr with _ | e
  · simp only [hnr, hsend]
    rcases hb : resp.bodyRead with e | body
    · simp [hb]
    · simp only [hb]
      by_cases hst : resp.statusCode = 200
      · simp only [hst]
        rcases hu : unmarshalAPIResponse body.parsedYaml with e | api <;> simp [hu]
      · simp [hst]
  · simp [hnr]

/-- The echo response to the concrete issue-license request of the C10
witness. -/
def echoScenarioResp : HttpResp :=
  ⟨200, "200 OK",
    .ok ⟨"license: echoed",
      .ok (.map [("result", .map [
        ("license", .map [
          ("name", .str "acme"), ("product", .str "aidbox"), ("type", .str "standard")]),
        ("jwt", .str "echo.jwt")])])⟩⟩

/-- Witness for C10 at a concrete completed exchange. -/
theorem v1_v2_createLicense_agree_witness :
    (∃ e, (V1.CreateLicense ⟨"https://aidbox.app/rpc", "tok"⟩ echoEnv
        "acme" "aidbox" "standard").fst = .error e) ↔
    (∃ e, (V2.CreateLicense ⟨"https://aidbox.app/rpc", "tok"⟩ echoEnv
        "acme" "aidbox" "standard").fst = .err e) :=
  (v1_v2_createLicense_agree ⟨"https://aidbox.app/rpc", "tok"⟩ echoEnv
    "acme" "aidbox" "standard" echoScenarioResp rfl).2

/-- C1: Create persists state exactly on the all-success path — it writes
state if and only if it raised no diagnostic, so a failure of any step
(plan decoding, request construction, HTTP call, body read, empty body,
response parsing) leaves an error diagnostic and no state. -/
theorem create_persists_iff_no_error (token : String) (env : CreateEnv) :
    ((createLicenseResource token env).state.isSome ↔
     (createLicenseResource token env).diagnostics = []) := by
  unfold createLicenseResource
  split
  · simp
  · dsimp only
    split
    · simp
    · split
      · simp
      · split
        · simp
        · split
          · simp
          · split
            · simp
            · split
              · simp
              · simp

/-- C7: Read re-persists a prior state that decodes without error,
unchanged and with no diagnostic. -/
theorem read_repersists_prior_state (d : LicenseResourceModel) :
    readLicenseResource (.ok d) = ⟨[], some d⟩ := rfl

/-- C8: configuration resolution — an explicit non-empty token wins; an
absent or empty token falls back to the AIDBOX_TOKEN environment value;
when that is empty too, Configure aborts with a diagnostic and publishes
no resource data; an absent or empty endpoint becomes the fixed
production URL. -/
theorem configure_resolution_precedence (m : AidboxProviderModel) (envToken : String) :
    (unsetOrEmpty m.token = false →
      configureProvider (.ok m) envToken =
        ⟨[], some ⟨if unsetOrEmpty m.endpoint then "https://aidbox.app/rpc"
                   else m.endpoint.valueString, m.token.valueString⟩⟩) ∧
    (unsetOrEmpty m.token = true → envToken ≠ "" →
      configureProvider (.ok m) envToken =
        ⟨[], some ⟨if unsetOrEmpty m.endpoint then "https://aidbox.app/rpc"
                   else m.endpoint.valueString, envToken⟩⟩) ∧
    (unsetOrEmpty m.token = true → envToken = "" →
      (configureProvider (.ok m) envToken).resourceData = none ∧
      (configureProvider (.ok m) envToken).diagnostics ≠ []) := by
  refine ⟨fun hT => ?_, fun hT hEnv => ?_, fun hT hEnv => ?_⟩
  · by_cases hE : unsetOrEmpty m.endpoint <;>
      simp [configureProvider, hT, hE, TfString.valueString]
  · by_cases hE : unsetOrEmpty m.endpoint <;>
      simp [configureProvider, hT, hE, hEnv, TfString.valueString]
  · by_cases hE : unsetOrEmpty m.endpoint <;>
      simp [configureProvider, hT, hE, hEnv]

/-- The plan of the end-to-end scenario: name "acme", type "standard",
product and every computed attribute unknown at plan time. -/
def scenarioPlan : LicenseResourceModel :=
  ⟨.unknown, .value "acme", .unknown, .value "standard", .unknown, .unknown, .unknown,
   .unknown, .unknown, .unknown, .unknown, .unknown, .unknown, .unknown, .unknown,
   .unknown, .unknown⟩

/-- The scenario response body as a JSON document: the envelope holding
license lic-1 and jwt abc.def.ghi. -/
def scenarioBodyJson : Json :=
  .obj [("result", .obj [
    ("license", .obj [
      ("id", .str "lic-1"), ("name", .str "acme"), ("product", .str "aidbox"),
      ("type", .str "standard"), ("status", .str "active"), ("maxInstances", .num 5)]),
    ("jwt", .str "abc.def.ghi")])]

/-- The scenario environment: the plan decodes to `scenarioPlan`, request
construction succeeds, and the endpoint answers with a readable non-empty
body parsing to `scenarioBodyJson`. -/
def scenarioEnv : CreateEnv :=
  ⟨.ok scenarioPlan, none, fun _ =>
    .ok ⟨.ok ⟨"\x7b\"result\": \x7b\"license\": \x7b\"id\": \"lic-1\"\x7d\x7d\x7d",
              .ok scenarioBodyJson⟩⟩⟩

/-- The state Create actually persists in the scenario: the plan with
product defaulted, nothing copied from the response envelope. -/
def scenarioState : LicenseResourceModel :=
  { scenarioPlan with product := TfString.value "aidbox" }

/-- C3: in the end-to-end scenario Create persists the plan-derived state
untouched by the response — the envelope under the result key is skipped
by the flat JSON decode, so the persisted id, jwt and max_instances are
not lic-1, abc.def.ghi and 5 (they stay unknown). -/
theorem create_scenario_drops_response_fields :
    createLicenseResource "tok" scenarioEnv = ⟨[], some scenarioState⟩ ∧
    scenarioState.id ≠ TfString.value "lic-1" ∧
    scenarioState.jwt ≠ TfString.value "abc.def.ghi" ∧
    scenarioState.maxInstances ≠ TfInt64.value 5 :=
  ⟨by decide, by decide, by decide, by decide⟩

end Aidbox
